import Mathlib

/-!
Shallow embedding of `src/satis_scanner.py` (class `SatisfactoryLogAnalyzer`).

Modelling conventions:
- Instants are absolute microsecond counts (`ℤ`) obtained from the parsed
  calendar fields via a civil-calendar day count; Python `datetime` objects are
  totally ordered and subtracted exactly the same way, so differences and
  comparisons coincide.
- Durations computed in the source with float division (`total_seconds()/60`,
  `/3600`) are modelled exactly in `ℚ`; the claims under study only involve
  values and comparisons that are exact in both models.
- The source stores instants as `isoformat()` strings and sorts / min-maxes
  those strings.  For strings produced by `datetime.isoformat` lexicographic
  order coincides with chronological order (fields are fixed-width and
  zero-padded; a fractional part only extends an otherwise equal prefix), so
  the model sorts by the instant itself.  All sorts in the source are Python's
  stable `list.sort`; the model uses a stable insertion sort.
- Log lines are modelled as newline-stripped strings: the trailing `'\n'`
  Python keeps on each line is invisible to every regex and substring test in
  the source (`.` and `[^\]]`-style classes never cross it, `str.strip`
  removes it).
- File I/O: a `FileInput` records the lines the iterator yielded before a
  possible `OSError` (`readFailed`).  The source wraps the whole read loop in
  `try/except` and returns the accumulated `file_metrics` from the `except`
  path, so the scan result is the fold over exactly the yielded lines,
  independent of whether a failure followed; `open()` failing is the case
  `lines = []`, `readFailed = true`.  (`errors='ignore'` makes decoding
  failures impossible.)
- `unique_players` is a Python `set`; the iteration order used to build the
  `players` dict is not determined by the input.  `analyze_all_logs` therefore
  takes that order as an explicit argument `setOrder`, constrained in theorems
  to be a permutation of the duplicate-free username list.
- `analysis_date` (`datetime.now()`) is the explicit argument `now`.
-/

/-! ## Generic list/string utilities mirroring Python primitives -/

/-- Characters removed by Python `str.strip()` (ASCII whitespace set). -/
def isPySpace (c : Char) : Bool :=
  c == ' ' || c == '\t' || c == '\n' || c == '\r' || c == '\x0b' || c == '\x0c'

/-- Python `str.strip()` on a character list. -/
def trimL (cs : List Char) : List Char :=
  ((cs.dropWhile isPySpace).reverse.dropWhile isPySpace).reverse

/-- `startsWithL s p` holds when `p` is an initial segment of `s`. -/
def startsWithL : List Char → List Char → Bool
  | _, [] => true
  | [], _ :: _ => false
  | c :: cs, p :: ps => c == p && startsWithL cs ps

/-- Python's `pat in s` substring test (`hasSubL s pat`). -/
def hasSubL : List Char → List Char → Bool
  | [], pat => pat.isEmpty
  | c :: cs, pat => startsWithL (c :: cs) pat || hasSubL cs pat

/-- `endsWithL s suf` holds when `suf` is a final segment of `s`. -/
def endsWithL (s suf : List Char) : Bool := startsWithL s.reverse suf.reverse

/-- Lexicographic code-point order on character lists, Python's `str <=`. -/
def lexLe : List Char → List Char → Bool
  | [], _ => true
  | _ :: _, [] => false
  | a :: as, b :: bs => if a < b then true else if b < a then false else lexLe as bs

/-- Python `str <=` (used by `sorted` on file paths). -/
def strLeB (a b : String) : Bool := lexLe a.toList b.toList

/-- Insert into a sorted list, before the first element `x` is `le` to. -/
def insertSorted {α : Type} (le : α → α → Bool) (x : α) : List α → List α
  | [] => [x]
  | y :: ys => if le x y then x :: y :: ys else y :: insertSorted le x ys

/-- Stable insertion sort; agrees with Python's stable `list.sort(key=...)`. -/
def sortByB {α : Type} (le : α → α → Bool) : List α → List α
  | [] => []
  | x :: xs => insertSorted le x (sortByB le xs)

/-- Python `l[-n:]`: the last at most `n` elements. -/
def lastN {α : Type} (n : ℕ) (l : List α) : List α := l.drop (l.length - n)

/-- First-occurrence dedup, the insertion order of a Python dict built by
iterating a list (used for `defaultdict` grouping order). -/
def firstOccAux (seen : List String) : List String → List String
  | [] => []
  | u :: rest => if u ∈ seen then firstOccAux seen rest else u :: firstOccAux (u :: seen) rest

/-- Duplicate-free list of the distinct elements in first-occurrence order. -/
def firstOcc (l : List String) : List String := firstOccAux [] l

/-- Python `max(l, default=d)` on rationals. -/
def pyMaxD (l : List ℚ) (d : ℚ) : ℚ :=
  match l with
  | [] => d
  | x :: xs => xs.foldl max x

/-- Python `min(l)` on rationals (junk value 0 on the empty list, which the
source never passes). -/
def pyMinQ (l : List ℚ) : ℚ :=
  match l with
  | [] => 0
  | x :: xs => xs.foldl min x

/-- Python `max(l)` on rationals (junk value 0 on the empty list). -/
def pyMaxQ (l : List ℚ) : ℚ :=
  match l with
  | [] => 0
  | x :: xs => xs.foldl max x

/-- Python `min(l)` on instants (junk value 0 on the empty list). -/
def pyMinI (l : List ℤ) : ℤ :=
  match l with
  | [] => 0
  | x :: xs => xs.foldl min x

/-- Python `max(l)` on instants (junk value 0 on the empty list). -/
def pyMaxI (l : List ℤ) : ℤ :=
  match l with
  | [] => 0
  | x :: xs => xs.foldl max x

/-! ## Timestamp parser (`parse_timestamp`, source lines 22-31)

`datetime.strptime(s, "%Y.%m.%d-%H.%M.%S:%f")`, retried on `s[:19]` with
`"%Y.%m.%d-%H.%M.%S"`.  Python's `_strptime` compiles each directive to a
regex fragment — `%Y ↦ \d{4}`, `%m ↦ 1[0-2]|0[1-9]|[1-9]`,
`%d ↦ 3[01]|[12]\d|0[1-9]|[1-9]`, `%H ↦ 2[0-3]|[0-1]\d|\d`, `%M ↦ [0-5]\d|\d`,
`%S ↦ 6[01]|[0-5]\d|\d`, `%f ↦ [0-9]{1,6}` — anchored at the start, then
raises (caught here as failure) if characters remain unconsumed or if the
`datetime` constructor rejects the fields (invalid calendar day, second ≥ 60).
Every numeric field below is followed by a literal separator or is last, so
shorter alternatives can never rescue a parse whose greedy match leaves
trailing characters; matching alternatives in regex priority order with
backtracking on *structural* failure and validating the (unique) resulting
field assignment afterwards reproduces the source behaviour exactly. -/

/-- Numeric value of a decimal digit character. -/
def digitVal (c : Char) : Option ℕ :=
  if c.isDigit then some (c.toNat - 48) else none

/-- Match `\d{4}` (the `%Y` directive). -/
def matchY {α : Type} (k : ℕ → List Char → Option α) : List Char → Option α
  | c1 :: c2 :: c3 :: c4 :: rest =>
    match digitVal c1, digitVal c2, digitVal c3, digitVal c4 with
    | some a, some b, some c, some d => k (((a * 10 + b) * 10 + c) * 10 + d) rest
    | _, _, _, _ => none
  | _ => none

/-- Match `1[0-2]|0[1-9]|[1-9]` (the `%m` directive), two-digit forms first. -/
def matchMonth {α : Type} (k : ℕ → List Char → Option α) (cs : List Char) : Option α :=
  (match cs with
    | c1 :: c2 :: rest =>
      match digitVal c1, digitVal c2 with
      | some a, some b =>
        if a == 1 && b ≤ 2 then k (10 + b) rest
        else if a == 0 && 1 ≤ b then k b rest
        else none
      | _, _ => none
    | _ => none).orElse fun _ =>
  match cs with
  | c1 :: rest =>
    match digitVal c1 with
    | some a => if 1 ≤ a then k a rest else none
    | none => none
  | _ => none

/-- Match `3[01]|[12]\d|0[1-9]|[1-9]` (the `%d` directive). -/
def matchDay {α : Type} (k : ℕ → List Char → Option α) (cs : List Char) : Option α :=
  (match cs with
    | c1 :: c2 :: rest =>
      match digitVal c1, digitVal c2 with
      | some a, some b =>
        if a == 3 && b ≤ 1 then k (30 + b) rest
        else if (a == 1 || a == 2) then k (10 * a + b) rest
        else if a == 0 && 1 ≤ b then k b rest
        else none
      | _, _ => none
    | _ => none).orElse fun _ =>
  match cs with
  | c1 :: rest =>
    match digitVal c1 with
    | some a => if 1 ≤ a then k a rest else none
    | none => none
  | _ => none

/-- Match `2[0-3]|[0-1]\d|\d` (the `%H` directive). -/
def matchHour {α : Type} (k : ℕ → List Char → Option α) (cs : List Char) : Option α :=
  (match cs with
    | c1 :: c2 :: rest =>
      match digitVal c1, digitVal c2 with
      | some a, some b =>
        if a == 2 && b ≤ 3 then k (20 + b) rest
        else if a ≤ 1 then k (10 * a + b) rest
        else none
      | _, _ => none
    | _ => none).orElse fun _ =>
  match cs with
  | c1 :: rest =>
    match digitVal c1 with
    | some a => k a rest
    | none => none
  | _ => none

/-- Match `[0-5]\d|\d` (the `%M` directive). -/
def matchMin {α : Type} (k : ℕ → List Char → Option α) (cs : List Char) : Option α :=
  (match cs with
    | c1 :: c2 :: rest =>
      match digitVal c1, digitVal c2 with
      | some a, some b => if a ≤ 5 then k (10 * a + b) rest else none
      | _, _ => none
    | _ => none).orElse fun _ =>
  match cs with
  | c1 :: rest =>
    match digitVal c1 with
    | some a => k a rest
    | none => none
  | _ => none

/-- Match `6[01]|[0-5]\d|\d` (the `%S` directive). -/
def matchSec {α : Type} (k : ℕ → List Char → Option α) (cs : List Char) : Option α :=
  (match cs with
    | c1 :: c2 :: rest =>
      match digitVal c1, digitVal c2 with
      | some a, some b =>
        if a == 6 && b ≤ 1 then k (60 + b) rest
        else if a ≤ 5 then k (10 * a + b) rest
        else none
      | _, _ => none
    | _ => none).orElse fun _ =>
  match cs with
  | c1 :: rest =>
    match digitVal c1 with
    | some a => k a rest
    | none => none
  | _ => none

/-- Take exactly `n` digit characters, accumulating their value. -/
def takeDigitsAux : ℕ → ℕ → List Char → Option (ℕ × List Char)
  | 0, acc, cs => some (acc, cs)
  | n + 1, acc, cs =>
    match cs with
    | c :: rest =>
      match digitVal c with
      | some d => takeDigitsAux n (acc * 10 + d) rest
      | none => none
    | [] => none

/-- One greedy-length alternative of `%f`: `n` digits scaled by `pad` to
microseconds. -/
def fracAt {α : Type} (n pad : ℕ) (k : ℕ → List Char → Option α) (cs : List Char) : Option α :=
  match takeDigitsAux n 0 cs with
  | some (v, rest) => k (v * pad) rest
  | none => none

/-- Match `[0-9]{1,6}` (the `%f` directive), longest first, value padded to
six digits of microseconds as `_strptime` does. -/
def matchFrac {α : Type} (k : ℕ → List Char → Option α) (cs : List Char) : Option α :=
  (fracAt 6 1 k cs).orElse fun _ =>
  (fracAt 5 10 k cs).orElse fun _ =>
  (fracAt 4 100 k cs).orElse fun _ =>
  (fracAt 3 1000 k cs).orElse fun _ =>
  (fracAt 2 10000 k cs).orElse fun _ =>
  fracAt 1 100000 k cs

/-- Match one literal separator character. -/
def matchLit {α : Type} (ch : Char) (k : List Char → Option α) : List Char → Option α
  | c :: rest => if c == ch then k rest else none
  | [] => none

/-- The calendar fields recovered by one `strptime` match. -/
structure TsFields where
  y : ℕ
  m : ℕ
  d : ℕ
  h : ℕ
  mi : ℕ
  s : ℕ
  f : ℕ
deriving DecidableEq

/-- Structural match of `"%Y.%m.%d-%H.%M.%S:%f"` against the whole string. -/
def matchPrimaryStruct (cs : List Char) : Option TsFields :=
  matchY (fun y => matchLit '.' (matchMonth (fun m => matchLit '.' (matchDay (fun d =>
    matchLit '-' (matchHour (fun h => matchLit '.' (matchMin (fun mi =>
      matchLit '.' (matchSec (fun s => matchLit ':' (matchFrac (fun f rest =>
        if rest.isEmpty then some ⟨y, m, d, h, mi, s, f⟩ else none))))))))))))) cs

/-- Structural match of `"%Y.%m.%d-%H.%M.%S"` against the whole string. -/
def matchNoFracStruct (cs : List Char) : Option TsFields :=
  matchY (fun y => matchLit '.' (matchMonth (fun m => matchLit '.' (matchDay (fun d =>
    matchLit '-' (matchHour (fun h => matchLit '.' (matchMin (fun mi =>
      matchLit '.' (matchSec (fun s rest =>
        if rest.isEmpty then some ⟨y, m, d, h, mi, s, 0⟩ else none))))))))))) cs

/-- Gregorian leap-year test. -/
def isLeap (y : ℕ) : Bool := y % 4 == 0 && (y % 100 != 0 || y % 400 == 0)

/-- Length of a month, as `datetime` validates it. -/
def daysInMonth (y m : ℕ) : ℕ :=
  if m = 2 then (if isLeap y then 29 else 28)
  else if m = 4 ∨ m = 6 ∨ m = 9 ∨ m = 11 then 30
  else 31

/-- The residual validation the `datetime` constructor performs after the
regex match (year ≥ 1, real calendar day, second ≤ 59). -/
def validDate (y m d s : ℕ) : Bool :=
  decide (1 ≤ y) && decide (d ≤ daysInMonth y m) && decide (s ≤ 59)

/-- Civil-calendar day count (days since 0000-03-01; an affine shift of
`datetime.toordinal`, so differences and order agree). -/
def daysFromCivil (y m d : ℕ) : ℕ :=
  let y' := if m ≤ 2 then y - 1 else y
  let era := y' / 400
  let yoe := y' % 400
  let mp := (m + 9) % 12
  let doy := (153 * mp + 2) / 5 + (d - 1)
  let doe := yoe * 365 + yoe / 4 - yoe / 100 + doy
  era * 146097 + doe

/-- Absolute instant in microseconds for a calendar field tuple. -/
def toMicros (y m d h mi s f : ℕ) : ℤ :=
  ((((((daysFromCivil y m d) * 24 + h) * 60 + mi) * 60 + s) * 1000000 + f : ℕ) : ℤ)

/-- Validate matched fields and build the instant; `none` models the
`ValueError` the `datetime` constructor raises. -/
def instantOfFields (t : TsFields) : Option ℤ :=
  if validDate t.y t.m t.d t.s then some (toMicros t.y t.m t.d t.h t.mi t.s t.f) else none

/-- First `strptime` attempt of `parse_timestamp` (primary pattern). -/
def parsePrimary (cs : List Char) : Option ℤ :=
  match matchPrimaryStruct cs with
  | some t => instantOfFields t
  | none => none

/-- Second `strptime` attempt of `parse_timestamp`, on the 19-char prefix. -/
def parseNoFrac (cs : List Char) : Option ℤ :=
  match matchNoFracStruct cs with
  | some t => instantOfFields t
  | none => none

/-- `parse_timestamp` (source lines 22-31): primary pattern, else the
fractionless pattern on `timestamp_str[:19]`, else no instant. -/
def parse_timestamp (tok : List Char) : Option ℤ :=
  (parsePrimary tok).orElse fun _ => parseNoFrac (tok.take 19)

/-! ## Event data model (the per-line dicts of `analyze_log_file`) -/

/-- A `JoinEvent` dict: `{timestamp, username, file}` (source lines 69-73). -/
structure Join where
  timestamp : ℤ
  username : String
  file : String
deriving DecidableEq

/-- A `ConnectionEvent` dict: `{timestamp, ip, type}` (source lines 80-84). -/
structure Connection where
  timestamp : ℤ
  ip : String
  type : String
deriving DecidableEq

/-- A `LogRecord` dict: `{timestamp, level, message, file}` (lines 88-93). -/
structure LogRecord where
  timestamp : ℤ
  level : String
  message : String
  file : String
deriving DecidableEq

/-- The `file_metrics` accumulator of `analyze_log_file` (lines 35-42). -/
structure FileMetrics where
  joins : List Join
  leaves : List Join
  errors : List LogRecord
  start_time : Option ℤ
  end_time : Option ℤ
  connections : List Connection
deriving DecidableEq

/-- The empty `file_metrics` dict. -/
def initFileMetrics : FileMetrics := ⟨[], [], [], none, none, []⟩

/-- One log file as presented to the scanner: its basename, the lines the
file iterator yielded, and whether an I/O failure followed (at `open` when
`lines = []`).  See the module comment on the I/O model. -/
structure FileInput where
  name : String
  lines : List String
  readFailed : Bool
deriving DecidableEq

/-! ## Line classifier (body of the loop in `analyze_log_file`, lines 46-93) -/

/-- Marker of the join branch: `"LogNet: Join succeeded:" in line`. -/
def joinMarkerL : List Char := "LogNet: Join succeeded:".toList

/-- Username pattern literal of `re.search(r'Join succeeded: (.+)', line)`. -/
def joinPatL : List Char := "Join succeeded: ".toList

/-- Marker of the connection branch. -/
def connMarkerL : List Char := "NotifyAcceptingConnection accepted from:".toList

/-- Literal part of `re.search(r'from: \[([^\]]+)\]', line)`. -/
def fromPatL : List Char := "from: [".toList

/-- Severity marker `"Error:"`. -/
def errTokL : List Char := "Error:".toList

/-- Severity marker `"Warning:"`. -/
def warnTokL : List Char := "Warning:".toList

/-- Severity marker `"LogNet: UNetConnection::Close"`. -/
def closeTokL : List Char := "LogNet: UNetConnection::Close".toList

/-- Severity string stored for error records. -/
def levelError : String := "Error"

/-- Severity string stored for warning records. -/
def levelWarning : String := "Warning"

/-- The constant `type` of every connection record. -/
def connType : String := "connection_attempt"

/-- `re.search(r'\[([^\]]+)\]', line)`: first `[`-anchored position followed
by a nonempty `]`-free run and a closing `]`; on failure at a position the
engine advances one character. -/
def bracketScan : List Char → Option (List Char)
  | [] => none
  | c :: rest =>
    if c == '[' then
      let run := rest.takeWhile (fun x => x ≠ ']')
      if run ≠ [] ∧ rest.drop run.length ≠ [] then some run else bracketScan rest
    else bracketScan rest

/-- `re.search(r'Join succeeded: (.+)', line)` on a newline-free line: the
greedy capture after the leftmost occurrence of the literal that is followed
by at least one character. -/
def joinScan : List Char → Option (List Char)
  | [] => none
  | c :: rest =>
    if startsWithL (c :: rest) joinPatL ∧ (c :: rest).drop joinPatL.length ≠ [] then
      some ((c :: rest).drop joinPatL.length)
    else joinScan rest

/-- `re.search(r'from: \[([^\]]+)\]', line)`: capture at the leftmost
occurrence of `"from: ["` whose bracket closes nonempty. -/
def ipScan : List Char → Option (List Char)
  | [] => none
  | c :: rest =>
    if startsWithL (c :: rest) fromPatL then
      let after := (c :: rest).drop fromPatL.length
      let run := after.takeWhile (fun x => x ≠ ']')
      if run ≠ [] ∧ after.drop run.length ≠ [] then some run else ipScan rest
    else ipScan rest

/-- `None`-aware minimum for the file span start (source lines 59-60). -/
def updMin (o : Option ℤ) (t : ℤ) : Option ℤ :=
  match o with
  | none => some t
  | some s => if t < s then some t else some s

/-- `None`-aware maximum for the file span end (source lines 61-62). -/
def updMax (o : Option ℤ) (t : ℤ) : Option ℤ :=
  match o with
  | none => some t
  | some s => if t > s then some t else some s

/-- The character list of one log line (the view every regex and substring
test of the source operates on). -/
def lineChars (line : String) : List Char := line.toList

/-- The truncated message stored for error records: `line.strip()[:200]`. -/
def msgOf (line : String) : String := String.mk ((trimL (lineChars line)).take 200)

/-- One iteration of the line loop of `analyze_log_file` (lines 46-93):
extract the bracketed token, parse the timestamp, extend the file span, then
run the ordered `if/elif` classification. -/
def analyzeLine (fname : String) (fm : FileMetrics) (line : String) : FileMetrics :=
  let cs := lineChars line
  match bracketScan cs with
  | none => fm
  | some tok =>
    match parse_timestamp tok with
    | none => fm
    | some t =>
      let fm1 : FileMetrics :=
        { fm with start_time := updMin fm.start_time t, end_time := updMax fm.end_time t }
      if hasSubL cs joinMarkerL then
        match joinScan cs with
        | some cap => { fm1 with joins := fm1.joins ++ [⟨t, String.mk (trimL cap), fname⟩] }
        | none => fm1
      else if hasSubL cs connMarkerL then
        match ipScan cs with
        | some ip => { fm1 with connections := fm1.connections ++ [⟨t, String.mk ip, connType⟩] }
        | none => fm1
      else if hasSubL cs errTokL || hasSubL cs warnTokL || hasSubL cs closeTokL then
        { fm1 with errors := fm1.errors ++
            [⟨t, (if hasSubL cs errTokL then levelError else levelWarning), msgOf line, fname⟩] }
      else fm1

/-- `analyze_log_file` (lines 33-98): fold the classifier over the lines the
file yielded; by the `try/except` structure the accumulated `file_metrics` is
returned whether or not an I/O failure ended the iteration. -/
def analyze_log_file (f : FileInput) : FileMetrics :=
  f.lines.foldl (analyzeLine f.name) initFileMetrics

/-! ## Corpus scanner, gap detector, sessions, aggregation
(`analyze_all_logs`, lines 144-248, and `calculate_sessions`, lines 100-142) -/

/-- A `server_periods` entry (source lines 159-164). -/
structure Span where
  file : String
  start : ℤ
  «end» : ℤ
  duration_hours : ℚ
deriving DecidableEq

/-- A `logging_gaps` entry (source lines 178-185). -/
structure LoggingGap where
  start : ℤ
  «end» : ℤ
  duration_hours : ℚ
  duration_days : ℚ
  after_file : String
  before_file : String
deriving DecidableEq

/-- A `sessions` entry (source lines 134-140). -/
structure Session where
  username : String
  start : ℤ
  «end» : ℚ
  duration_minutes : ℚ
  date : ℤ
deriving DecidableEq

/-- A `player_stats` value (source lines 198-206). -/
structure PlayerStats where
  total_joins : ℕ
  total_playtime_hours : ℚ
  first_seen : ℤ
  last_seen : ℤ
  avg_session_hours : ℚ
  min_session_hours : ℚ
  max_session_hours : ℚ
deriving DecidableEq

/-- The `summary` object (source lines 225-238). -/
structure Summary where
  total_log_files : ℕ
  total_unique_players : ℕ
  total_join_events : ℕ
  total_sessions : ℕ
  total_errors : ℕ
  total_connections : ℕ
  total_logging_gaps : ℕ
  longest_gap_hours : ℚ
  analysis_date : ℤ
  server_span_days : ℤ
  first_activity : Option ℤ
  last_activity : Option ℤ
deriving DecidableEq

/-- The serialized metrics snapshot (source lines 224-246); association lists
keep dict insertion order, so equality of two `Snapshot`s is byte-identity of
the corresponding `json.dump` outputs up to the injectivity of rendering. -/
structure Snapshot where
  summary : Summary
  players : List (String × PlayerStats)
  sessions : List Session
  server_periods : List Span
  logging_gaps : List LoggingGap
  daily_activity : List (ℤ × ℕ)
  errors : List LogRecord
  recent_connections : List Connection
deriving DecidableEq

/-- Hours between two instants, `(e - s).total_seconds() / 3600` exactly. -/
def durHours (s e : ℤ) : ℚ := ((e - s : ℤ) : ℚ) / 3600000000

/-- Minutes between two instants, `(t' - t).total_seconds() / 60` exactly. -/
def gapMinutes (t t' : ℤ) : ℚ := ((t' - t : ℤ) : ℚ) / 60000000

/-- Calendar date of an instant as a day number (`.date()`); equal dates of
two instants correspond exactly to equal ISO date strings. -/
def dateOf (t : ℤ) : ℤ := Int.fdiv t 86400000000

/-- Session end instant `session_start + timedelta(minutes=duration)` as an
exact rational microsecond count. -/
def sEnd (t : ℤ) (dur : ℚ) : ℚ := (t : ℚ) + dur * 60000000

/-- Session duration for a join followed by a later join (lines 117-128):
`max(15, gap - 5)` when `0 < gap <= 360` minutes, else the 60-minute
default. -/
def sessionDur (t t' : ℤ) : ℚ :=
  if 0 < gapMinutes t t' ∧ gapMinutes t t' ≤ 360 then max 15 (gapMinutes t t' - 5) else 60

/-- The inner loop of `calculate_sessions` (lines 113-140) over one player's
time-sorted join instants: each join but the last pairs with its successor,
the last gets the 45-minute default. -/
def sessionsFor (u : String) : List ℤ → List Session
  | [] => []
  | [t] => [⟨u, t, sEnd t 45, 45, dateOf t⟩]
  | t :: t' :: rest =>
    ⟨u, t, sEnd t (sessionDur t t'), sessionDur t t', dateOf t⟩ :: sessionsFor u (t' :: rest)

/-- Stable sort of one player's joins by timestamp (`joins.sort(key=...)`,
line 111; the source sorts ISO strings, which order exactly as instants). -/
def sortJoins (l : List Join) : List Join :=
  sortByB (fun a b => decide (a.timestamp ≤ b.timestamp)) l

/-- `calculate_sessions` (lines 100-142): group joins by username in
first-occurrence order (the `defaultdict` insertion order), sort each group
by time, and emit one session per join. -/
def calculate_sessions (all_joins : List Join) : List Session :=
  (firstOcc (all_joins.map (fun j => j.username))).flatMap fun u =>
    sessionsFor u ((sortJoins (all_joins.filter (fun j => j.username == u))).map
      (fun j => j.timestamp))

/-- `glob` pattern `FactoryGame*.log` as a basename test: the name is the
literal stem, then anything, then the literal suffix (11 = stem length). -/
def globMatch (n : String) : Bool :=
  startsWithL n.toList ("FactoryGame".toList) && endsWithL (n.toList.drop 11) (".log".toList)

/-- The corpus-wide accumulators of `analyze_all_logs` (lines 148-152). -/
structure ScanResult where
  all_joins : List Join
  all_errors : List LogRecord
  all_connections : List Connection
  server_periods : List Span
deriving DecidableEq

/-- One iteration of the file loop (lines 154-168): scan the file, record a
span when both extremes exist, extend the event lists. -/
def scanStep (acc : ScanResult) (f : FileInput) : ScanResult :=
  let fm := analyze_log_file f
  { all_joins := acc.all_joins ++ fm.joins,
    all_errors := acc.all_errors ++ fm.errors,
    all_connections := acc.all_connections ++ fm.connections,
    server_periods :=
      match fm.start_time, fm.end_time with
      | some s, some e => acc.server_periods ++ [⟨f.name, s, e, durHours s e⟩]
      | _, _ => acc.server_periods }

/-- The file loop over an already-ordered file list. -/
def scanOrdered (files : List FileInput) : ScanResult :=
  files.foldl scanStep ⟨[], [], [], []⟩

/-- Files of the directory listing matching the glob, in the `sorted(...)`
lexicographic path order (lines 146 and 154). -/
def sortedLogFiles (listing : List FileInput) : List FileInput :=
  sortByB (fun a b => strLeB a.name b.name) (listing.filter (fun f => globMatch f.name))

/-- Whole-corpus scan: glob, sort, fold the file scanner. -/
def corpusScan (listing : List FileInput) : ScanResult :=
  scanOrdered (sortedLogFiles listing)

/-- One gap record (lines 178-185). -/
def mkGap (a b : Span) : LoggingGap :=
  ⟨a.«end», b.start, durHours a.«end» b.start, durHours a.«end» b.start / 24, a.file, b.file⟩

/-- The gap loop (lines 172-185) over the start-sorted span list: an adjacent
pair contributes exactly when its gap strictly exceeds one hour. -/
def detectGaps : List Span → List LoggingGap
  | a :: b :: rest =>
    (if durHours a.«end» b.start > 1 then [mkGap a b] else []) ++ detectGaps (b :: rest)
  | _ => []

/-- `player_stats[username]` (lines 193-206). -/
def playerStatsFor (all_joins : List Join) (sessions : List Session) (u : String) :
    PlayerStats :=
  let user_joins := all_joins.filter (fun j => j.username == u)
  let user_sessions := sessions.filter (fun s => s.username == u)
  let ds := user_sessions.map (fun s => s.duration_minutes)
  { total_joins := user_joins.length,
    total_playtime_hours := ds.sum / 60,
    first_seen := pyMinI (user_joins.map (fun j => j.timestamp)),
    last_seen := pyMaxI (user_joins.map (fun j => j.timestamp)),
    avg_session_hours := if ds ≠ [] then ds.sum / (ds.length : ℚ) / 60 else 0,
    min_session_hours := if ds ≠ [] then pyMinQ ds / 60 else 0,
    max_session_hours := if ds ≠ [] then pyMaxQ ds / 60 else 0 }

/-- The `daily_activity` defaultdict fold (lines 218-221): bump the count of
the join's date, keys in first-appearance order. -/
def bumpDate : List (ℤ × ℕ) → ℤ → List (ℤ × ℕ)
  | [], d => [(d, 1)]
  | (k, v) :: rest, d => if k = d then (k, v + 1) :: rest else (k, v) :: bumpDate rest d

/-- `daily_activity` accumulated over all joins. -/
def dailyActivity (l : List Join) : List (ℤ × ℕ) :=
  l.foldl (fun acc j => bumpDate acc (dateOf j.timestamp)) []

/-- The usernames of a join list. -/
def usernames (l : List Join) : List String := l.map (fun j => j.username)

/-- The duplicate-free username list underlying the `unique_players` set
(line 189); `setOrder` arguments below are constrained to permutations
of it. -/
def dedupOf (listing : List FileInput) : List String :=
  firstOcc (usernames (corpusScan listing).all_joins)

/-- The `server_periods.sort(key=lambda x: x['start'])` result (line 171). -/
def sortedPeriods (listing : List FileInput) : List Span :=
  sortByB (fun a b => decide (a.start ≤ b.start)) (corpusScan listing).server_periods

/-- The corpus's `logging_gaps` list (lines 172-185). -/
def gapsOf (listing : List FileInput) : List LoggingGap :=
  detectGaps (sortedPeriods listing)

/-- The corpus's session list (line 188). -/
def sessionsOf (listing : List FileInput) : List Session :=
  calculate_sessions (corpusScan listing).all_joins

/-- `first_activity` (lines 209-214). -/
def firstActivityOf (listing : List FileInput) : Option ℤ :=
  match (corpusScan listing).all_joins with
  | [] => none
  | _ => some (pyMinI ((corpusScan listing).all_joins.map (fun j => j.timestamp)))

/-- `last_activity` (lines 209-214). -/
def lastActivityOf (listing : List FileInput) : Option ℤ :=
  match (corpusScan listing).all_joins with
  | [] => none
  | _ => some (pyMaxI ((corpusScan listing).all_joins.map (fun j => j.timestamp)))

/-- `server_span_days = (last_activity - first_activity).days` (line 212). -/
def spanDaysOf (listing : List FileInput) : ℤ :=
  match firstActivityOf listing, lastActivityOf listing with
  | some f, some l => Int.fdiv (l - f) 86400000000
  | _, _ => 0

/-- The per-player stats entry builder used for the `players` dict. -/
def playerEntry (listing : List FileInput) (u : String) : String × PlayerStats :=
  (u, playerStatsFor (corpusScan listing).all_joins (sessionsOf listing) u)

/-- `analyze_all_logs` (lines 144-248).  `setOrder` is the iteration order of
the `unique_players` set, `now` the `datetime.now()` instant. -/
def analyze_all_logs (listing : List FileInput) (setOrder : List String) (now : ℤ) :
    Snapshot :=
  { summary :=
      { total_log_files := (listing.filter (fun f => globMatch f.name)).length,
        total_unique_players := (dedupOf listing).length,
        total_join_events := (corpusScan listing).all_joins.length,
        total_sessions := (sessionsOf listing).length,
        total_errors := (corpusScan listing).all_errors.length,
        total_connections := (corpusScan listing).all_connections.length,
        total_logging_gaps := (gapsOf listing).length,
        longest_gap_hours := pyMaxD ((gapsOf listing).map (fun g => g.duration_hours)) 0,
        analysis_date := now,
        server_span_days := spanDaysOf listing,
        first_activity := firstActivityOf listing,
        last_activity := lastActivityOf listing },
    players := setOrder.map (playerEntry listing),
    sessions := sessionsOf listing,
    server_periods := sortedPeriods listing,
    logging_gaps := gapsOf listing,
    daily_activity := dailyActivity (corpusScan listing).all_joins,
    errors := lastN 100 (corpusScan listing).all_errors,
    recent_connections := lastN 50 (corpusScan listing).all_connections }

/-! ## Concrete inputs used by witnesses and counterexamples -/

/-- Junk session used as the `getD` default when indexing session lists. -/
def defSession : Session := ⟨"", 0, 0, 0, 0⟩

/-- Junk span used as the `getD` default when indexing span lists. -/
def defSpan : Span := ⟨"", 0, 0, 0⟩

/-- A log basename matching the glob. -/
def fileName1 : String := "FactoryGame.log"

/-- A join line for player alice at 2025-07-27 10:00:00. -/
def lineA : String := "[2025.07.27-10.00.00:000] LogNet: Join succeeded: alice"

/-- A join line for player bob at 2025-07-27 11:00:00. -/
def lineB : String := "[2025.07.27-11.00.00:000] LogNet: Join succeeded: bob"

/-- A line matching only the network-close severity marker. -/
def lineClose : String := "[2025.07.27-11.10.42:986] LogNet: UNetConnection::Close reason"

/-- A line with the join marker but nothing capturable after the colon. -/
def lineNoUser : String := "[2025.07.27-11.10.42:986] LogNet: Join succeeded:"

/-- A line with no bracketed token at all. -/
def lineNoBracket : String := "no timestamp here"

/-- The instant of `lineClose`'s timestamp. -/
def tClose : ℤ := toMicros 2025 7 27 11 10 42 986000

/-- The bracketed token of `lineClose` and `lineNoUser`. -/
def tokClose : List Char := "2025.07.27-11.10.42:986".toList

/-- A one-file directory listing with joins by alice and bob. -/
def listing1 : List FileInput := [⟨fileName1, [lineA, lineB], false⟩]

/-- One `unique_players` iteration order for `listing1`. -/
def ordAB : List String := ["alice", "bob"]

/-- The other `unique_players` iteration order for `listing1`. -/
def ordBA : List String := ["bob", "alice"]

/-- A file whose read failed mid-iteration after yielding one join line. -/
def fileFailW : FileInput := ⟨fileName1, [lineA], true⟩

/-- A file whose `open` failed: nothing was yielded. -/
def fileOpenFailW : FileInput := ⟨fileName1, [], true⟩

/-- The empty corpus accumulator. -/
def emptyScan : ScanResult := ⟨[], [], [], []⟩

/-- Span A of the spec's gap example (00:00-01:00 on day 0). -/
def spanA : Span := ⟨"A", 0, 3600000000, 1⟩

/-- Span B of the spec's gap example (03:00-04:00 on day 0). -/
def spanB : Span := ⟨"B", 10800000000, 14400000000, 1⟩

/-- The single gap the example produces: 01:00-03:00, two hours. -/
def gapAB : LoggingGap := ⟨3600000000, 10800000000, 2, 2 / 24, "A", "B"⟩

/-- Witness join used for the session-invariant claim. -/
def joinW : Join := ⟨0, "p", "f"⟩

/-- The session generated from `joinW` alone. -/
def sessW : Session := ⟨"p", 0, sEnd 0 45, 45, dateOf 0⟩

/-- Witness per-player instant list: two joins 30 minutes apart. -/
def tsW : List ℤ := [0, 1800000000]

/-! ## Helper lemmas -/

theorem sessionsFor_length (u : String) : ∀ ts : List ℤ, (sessionsFor u ts).length = ts.length
  | [] => rfl
  | [_] => rfl
  | t :: t' :: rest => by
    simp only [sessionsFor, List.length_cons]
    rw [sessionsFor_length u (t' :: rest)]
    simp

theorem sessionsFor_getD_mid (u : String) : ∀ (ts : List ℤ) (i : ℕ), i + 1 < ts.length →
    (sessionsFor u ts).getD i defSession =
      ⟨u, ts.getD i 0, sEnd (ts.getD i 0) (sessionDur (ts.getD i 0) (ts.getD (i + 1) 0)),
        sessionDur (ts.getD i 0) (ts.getD (i + 1) 0), dateOf (ts.getD i 0)⟩
  | [], i, hi => by simp at hi
  | [_], i, hi => by simp at hi
  | t :: t' :: rest, 0, _ => by simp [sessionsFor]
  | t :: t' :: rest, j + 1, hi => by
    have hj : j + 1 < (t' :: rest).length := by
      simp only [List.length_cons] at hi ⊢; omega
    simp only [sessionsFor, List.getD_cons_succ]
    exact sessionsFor_getD_mid u (t' :: rest) j hj

theorem sessionsFor_getD_last (u : String) : ∀ (ts : List ℤ) (i : ℕ), i + 1 = ts.length →
    (sessionsFor u ts).getD i defSession =
      ⟨u, ts.getD i 0, sEnd (ts.getD i 0) 45, 45, dateOf (ts.getD i 0)⟩
  | [], i, hi => by simp at hi
  | [_], 0, _ => by simp [sessionsFor]
  | [_], _ + 1, hi => by simp at hi
  | _ :: _ :: _, 0, hi => by simp at hi
  | t :: t' :: rest, j + 1, hi => by
    have hj : j + 1 = (t' :: rest).length := by
      simp only [List.length_cons] at hi ⊢; omega
    simp only [sessionsFor, List.getD_cons_succ]
    exact sessionsFor_getD_last u (t' :: rest) j hj

theorem sessionsFor_facts (u : String) : ∀ (ts : List ℤ) (s : Session), s ∈ sessionsFor u ts →
    (15 : ℚ) ≤ s.duration_minutes ∧ s.«end» = sEnd s.start s.duration_minutes
  | [], s, hs => by simp [sessionsFor] at hs
  | [t], s, hs => by
    simp only [sessionsFor, List.mem_singleton] at hs
    subst hs
    exact ⟨by norm_num, rfl⟩
  | t :: t' :: rest, s, hs => by
    simp only [sessionsFor, List.mem_cons] at hs
    rcases hs with h | h
    · subst h
      refine ⟨?_, rfl⟩
      show (15 : ℚ) ≤ sessionDur t t'
      unfold sessionDur
      split
      · exact le_max_left _ _
      · norm_num
    · exact sessionsFor_facts u (t' :: rest) s h

/-! ## Claim theorems -/

/-- C1: for a player's joins sorted ascending by instant, the session at
position `i` has duration `max(15, gap − 5)` minutes when the gap to the next
join is strictly between 0 and 360 minutes, 60 minutes when the gap is ≤ 0 or
> 360, and 45 minutes for the last join; so one join yields one 45-minute
session and two joins 30 minutes apart give the first session duration 25. -/
theorem c1_session_duration_heuristic (u : String) (ts : List ℤ)
    (hsorted : ts.Pairwise (fun a b => a ≤ b)) (i : ℕ) (hi : i < ts.length) :
    (sessionsFor u ts).length = ts.length ∧
    (∀ hnext : i + 1 < ts.length,
      (0 < gapMinutes (ts.getD i 0) (ts.getD (i + 1) 0) →
        gapMinutes (ts.getD i 0) (ts.getD (i + 1) 0) < 360 →
        ((sessionsFor u ts).getD i defSession).duration_minutes
          = max 15 (gapMinutes (ts.getD i 0) (ts.getD (i + 1) 0) - 5)) ∧
      ((gapMinutes (ts.getD i 0) (ts.getD (i + 1) 0) ≤ 0 ∨
          360 < gapMinutes (ts.getD i 0) (ts.getD (i + 1) 0)) →
        ((sessionsFor u ts).getD i defSession).duration_minutes = 60)) ∧
    (i + 1 = ts.length →
      ((sessionsFor u ts).getD i defSession).duration_minutes = 45) ∧
    (∀ j : Join, calculate_sessions [j]
      = [⟨j.username, j.timestamp, sEnd j.timestamp 45, 45, dateOf j.timestamp⟩]) ∧
    (∀ j j' : Join, j'.username = j.username → j'.timestamp = j.timestamp + 1800000000 →
      ((calculate_sessions [j, j']).getD 0 defSession).duration_minutes = 25) := by
  refine ⟨sessionsFor_length u ts, ?_, ?_, ?_, ?_⟩
  · intro hnext
    rw [sessionsFor_getD_mid u ts i hnext]
    constructor
    · intro h0 h360
      show sessionDur _ _ = _
      unfold sessionDur
      rw [if_pos ⟨h0, le_of_lt h360⟩]
    · intro h
      show sessionDur _ _ = _
      unfold sessionDur
      rw [if_neg]
      rintro ⟨hg0, hg360⟩
      rcases h with h | h
      · linarith
      · linarith
  · intro hlast
    rw [sessionsFor_getD_last u ts i hlast]
  · intro j
    simp [calculate_sessions, firstOcc, firstOccAux, usernames, sortJoins, sortByB,
      insertSorted, sessionsFor, List.filter]
  · intro j j' hu ht
    have hg : gapMinutes j.timestamp (j.timestamp + 1800000000) = 30 := by
      unfold gapMinutes
      rw [show j.timestamp + 1800000000 - j.timestamp = 1800000000 from by ring]
      norm_num
    have hd : sessionDur j.timestamp (j.timestamp + 1800000000) = 25 := by
      unfold sessionDur
      rw [hg]
      norm_num
    have hle : decide (j.timestamp ≤ j'.timestamp) = true := by
      rw [ht]
      exact decide_eq_true (by omega)
    have hbeq : (j'.username == j.username) = true := by
      rw [hu]; simp
    simp [calculate_sessions, firstOcc, firstOccAux, usernames, sortJoins, sortByB,
      insertSorted, sessionsFor, List.filter, hu, hbeq, hle, ht, hd]

/-- C4: every session produced by session reconstruction has its end strictly
after its start and a duration of at least 15 minutes. -/
theorem c4_session_invariants (all_joins : List Join) (s : Session)
    (hs : s ∈ calculate_sessions all_joins) :
    (s.start : ℚ) < s.«end» ∧ (15 : ℚ) ≤ s.duration_minutes := by
  unfold calculate_sessions at hs
  rcases List.mem_flatMap.1 hs with ⟨u, _, hmem⟩
  obtain ⟨h15, hend⟩ := sessionsFor_facts u _ s hmem
  refine ⟨?_, h15⟩
  rw [hend]
  unfold sEnd
  nlinarith [h15]

/-- Witness for C4 at a concrete one-join corpus. -/
theorem c4_witness :
    sessW ∈ calculate_sessions [joinW] ∧
    ((sessW.start : ℚ) < sessW.«end» ∧ (15 : ℚ) ≤ sessW.duration_minutes) :=
  ⟨show sessW ∈ [sessW] from List.mem_singleton.2 rfl,
    c4_session_invariants [joinW] sessW (show sessW ∈ [sessW] from List.mem_singleton.2 rfl)⟩

/-- Witness for C1: two joins 30 minutes apart, first session duration
`max 15 (30 - 5)`. -/
theorem c1_witness :
    ((sessionsFor "p" tsW).getD 0 defSession).duration_minutes
      = max 15 (gapMinutes (tsW.getD 0 0) (tsW.getD (0 + 1) 0) - 5) :=
  ((c1_session_duration_heuristic "p" tsW (by decide) 0 (by decide)).2.1
    (by decide)).1 (by norm_num [gapMinutes, tsW]) (by norm_num [gapMinutes, tsW])

/-- C6: a line with no bracketed token, or whose first bracketed token fails
both timestamp patterns, produces no event and leaves the file metrics
(including the observed span) unchanged. -/
theorem c6_unparseable_line_no_effect (fname : String) (fm : FileMetrics) (line : String)
    (h : bracketScan (lineChars line) = none ∨
      ∃ tok, bracketScan (lineChars line) = some tok ∧ parse_timestamp tok = none) :
    analyzeLine fname fm line = fm := by
  rcases h with h | ⟨tok, h1, h2⟩
  · simp [analyzeLine, h]
  · simp [analyzeLine, h1, h2]

/-- Witness for C6 on a line without a bracketed token. -/
theorem c6_witness : analyzeLine fileName1 initFileMetrics lineNoBracket = initFileMetrics :=
  c6_unparseable_line_no_effect fileName1 initFileMetrics lineNoBracket (Or.inl (by decide))

/-- C9: a timestamped line that reaches the severity branch via `Warning:` or
the network-close marker and does not contain `Error:` is recorded with
severity `Warning`. -/
theorem c9_close_marker_warning (fname : String) (fm : FileMetrics) (line : String)
    (tok : List Char) (t : ℤ)
    (hbr : bracketScan (lineChars line) = some tok)
    (hts : parse_timestamp tok = some t)
    (hjoin : hasSubL (lineChars line) joinMarkerL = false)
    (hconn : hasSubL (lineChars line) connMarkerL = false)
    (hsev : hasSubL (lineChars line) warnTokL = true ∨ hasSubL (lineChars line) closeTokL = true)
    (herr : hasSubL (lineChars line) errTokL = false) :
    (analyzeLine fname fm line).errors
      = fm.errors ++ [⟨t, levelWarning, msgOf line, fname⟩] := by
  rcases hsev with hw | hc
  · simp [analyzeLine, hbr, hts, hjoin, hconn, herr, hw]
  · simp [analyzeLine, hbr, hts, hjoin, hconn, herr, hc]

/-- Witness for C9 on a concrete network-close line. -/
theorem c9_witness :
    (analyzeLine fileName1 initFileMetrics lineClose).errors
      = initFileMetrics.errors ++ [⟨tClose, levelWarning, msgOf lineClose, fileName1⟩] :=
  c9_close_marker_warning fileName1 initFileMetrics lineClose tokClose tClose
    (by decide) (by decide) (by decide) (by decide) (Or.inr (by decide)) (by decide)

/-- C10: a timestamped line containing the join marker whose username pattern
fails to match produces no event of any kind, yet still extends the file's
observed time span. -/
theorem c10_join_marker_no_capture (fname : String) (fm : FileMetrics) (line : String)
    (tok : List Char) (t : ℤ)
    (hbr : bracketScan (lineChars line) = some tok)
    (hts : parse_timestamp tok = some t)
    (hjoin : hasSubL (lineChars line) joinMarkerL = true)
    (hcap : joinScan (lineChars line) = none) :
    (analyzeLine fname fm line).joins = fm.joins ∧
    (analyzeLine fname fm line).connections = fm.connections ∧
    (analyzeLine fname fm line).errors = fm.errors ∧
    (analyzeLine fname fm line).start_time = updMin fm.start_time t ∧
    (analyzeLine fname fm line).end_time = updMax fm.end_time t := by
  refine ⟨?_, ?_, ?_, ?_, ?_⟩ <;> simp [analyzeLine, hbr, hts, hjoin, hcap]

/-- Witness for C10 on a concrete capture-free join line. -/
theorem c10_witness :
    (analyzeLine fileName1 initFileMetrics lineNoUser).joins = initFileMetrics.joins ∧
    (analyzeLine fileName1 initFileMetrics lineNoUser).start_time
      = updMin initFileMetrics.start_time tClose :=
  ⟨(c10_join_marker_no_capture fileName1 initFileMetrics lineNoUser tokClose tClose
      (by decide) (by decide) (by decide) (by decide)).1,
    (c10_join_marker_no_capture fileName1 initFileMetrics lineNoUser tokClose tClose
      (by decide) (by decide) (by decide) (by decide)).2.2.2.1⟩

theorem lastN_length_le {α : Type} (n : ℕ) (l : List α) : (lastN n l).length ≤ n := by
  simp only [lastN, List.length_drop]
  omega

theorem players_map_fst (listing : List FileInput) (o : List String) (n : ℤ) :
    (analyze_all_logs listing o n).players.map Prod.fst = o := by
  show (o.map (playerEntry listing)).map Prod.fst = o
  rw [List.map_map]
  have h : Prod.fst ∘ playerEntry listing = id := by
    funext u
    rfl
  rw [h, List.map_id]

theorem mem_firstOccAux : ∀ (l seen : List String) (u : String), u ∈ firstOccAux seen l → u ∈ l := by
  intro l
  induction l with
  | nil =>
    intro seen u h
    simp [firstOccAux] at h
  | cons v rest ih =>
    intro seen u h
    unfold firstOccAux at h
    split at h
    · exact List.mem_cons_of_mem v (ih seen u h)
    · rcases List.mem_cons.1 h with h | h
      · exact h ▸ List.mem_cons_self v rest
      · exact List.mem_cons_of_mem v (ih _ u h)

theorem foldl_max_le (xs : List ℚ) : ∀ a x : ℚ, x = a ∨ x ∈ xs → x ≤ xs.foldl max a := by
  induction xs with
  | nil =>
    intro a x h
    rcases h with h | h
    · exact le_of_eq h
    · simp at h
  | cons y ys ih =>
    intro a x h
    simp only [List.foldl_cons]
    rcases h with h | h
    · subst h
      exact le_trans (le_max_left _ _) (ih (max x y) (max x y) (Or.inl rfl))
    · rcases List.mem_cons.1 h with h | h
      · subst h
        exact le_trans (le_max_right _ _) (ih _ _ (Or.inl rfl))
      · exact ih (max a y) x (Or.inr h)

theorem foldl_max_mem (xs : List ℚ) : ∀ a : ℚ, xs.foldl max a = a ∨ xs.foldl max a ∈ xs := by
  induction xs with
  | nil =>
    intro a
    exact Or.inl rfl
  | cons y ys ih =>
    intro a
    simp only [List.foldl_cons]
    rcases ih (max a y) with h | h
    · rw [h]
      rcases max_choice a y with h2 | h2
      · exact Or.inl h2
      · right
        rw [h2]
        exact List.mem_cons_self y ys
    · exact Or.inr (List.mem_cons_of_mem y h)

theorem detectGaps_mem : ∀ (spans : List Span) (g : LoggingGap),
    g ∈ detectGaps spans ↔
      ∃ i : ℕ, i + 1 < spans.length ∧
        1 < durHours (spans.getD i defSpan).«end» (spans.getD (i + 1) defSpan).start ∧
        g = mkGap (spans.getD i defSpan) (spans.getD (i + 1) defSpan)
  | [], g => by
    constructor
    · intro h
      simp [detectGaps] at h
    · rintro ⟨i, hi, -, -⟩
      exact absurd hi (by simp)
  | [a], g => by
    constructor
    · intro h
      simp [detectGaps] at h
    · rintro ⟨i, hi, -, -⟩
      exact absurd hi (by simp)
  | a :: b :: rest, g => by
    have ihmem := detectGaps_mem (b :: rest) g
    constructor
    · intro h
      simp only [detectGaps, List.mem_append] at h
      rcases h with h | h
      · by_cases hc : durHours a.«end» b.start > 1
        · rw [if_pos hc] at h
          rcases List.mem_singleton.1 h with rfl
          refine ⟨0, ?_, by simpa using hc, by simp⟩
          simp only [List.length_cons]
          omega
        · rw [if_neg hc] at h
          simp at h
      · rcases ihmem.1 h with ⟨i, hi, hgap, heq⟩
        refine ⟨i + 1, ?_, ?_, ?_⟩
        · simp only [List.length_cons] at hi ⊢
          omega
        · simpa only [List.getD_cons_succ] using hgap
        · simpa only [List.getD_cons_succ] using heq
    · rintro ⟨i, hi, hgap, heq⟩
      simp only [detectGaps, List.mem_append]
      cases i with
      | zero =>
        simp only [List.getD_cons_zero, List.getD_cons_succ] at hgap heq
        left
        rw [if_pos hgap]
        exact List.mem_singleton.2 heq
      | succ j =>
        right
        refine ihmem.2 ⟨j, ?_, ?_, ?_⟩
        · simp only [List.length_cons] at hi ⊢
          omega
        · simpa only [List.getD_cons_succ] using hgap
        · simpa only [List.getD_cons_succ] using heq

/-- C2 counterexample: a file whose read failed after yielding one join line
still contributes a join event and a file span, contrary to the claim that
any I/O failure while opening or reading leaves zero contribution. -/
theorem c2_counterexample :
    fileFailW.readFailed = true ∧
    (analyze_log_file fileFailW).joins ≠ [] ∧
    (analyze_log_file fileFailW).start_time ≠ none :=
  ⟨rfl, by decide, by decide⟩

/-- C2 (amended): a file whose `open` fails — no line yielded — contributes
no events and no FileSpan, and the corpus scan continues with the remaining
files; a mid-read failure instead keeps the events of the lines already read. -/
theorem c2_amended_open_failure (f : FileInput) (rest : List FileInput) (acc : ScanResult)
    (hfail : f.readFailed = true) (hopen : f.lines = []) :
    analyze_log_file f = initFileMetrics ∧
    scanStep acc f = acc ∧
    scanOrdered (f :: rest) = scanOrdered rest := by
  have h1 : analyze_log_file f = initFileMetrics := by
    unfold analyze_log_file
    rw [hopen]
    rfl
  have h2 : ∀ a : ScanResult, scanStep a f = a := by
    intro a
    unfold scanStep
    rw [h1]
    simp [initFileMetrics]
  refine ⟨h1, h2 acc, ?_⟩
  unfold scanOrdered
  rw [List.foldl_cons, h2]

/-- Witness for the amended C2 at a concrete open-failed file. -/
theorem c2_amended_witness :
    analyze_log_file fileOpenFailW = initFileMetrics ∧
    scanStep emptyScan fileOpenFailW = emptyScan ∧
    scanOrdered [fileOpenFailW] = scanOrdered [] :=
  c2_amended_open_failure fileOpenFailW [] emptyScan rfl rfl

/-- C8: the snapshot's error and connection tails are the most recent at most
100 and 50 entries, while the summary counts use the full lists. -/
theorem c8_bounded_tails (listing : List FileInput) (setOrder : List String) (now : ℤ) :
    (analyze_all_logs listing setOrder now).errors
      = lastN 100 (corpusScan listing).all_errors ∧
    (analyze_all_logs listing setOrder now).errors.length ≤ 100 ∧
    (analyze_all_logs listing setOrder now).summary.total_errors
      = (corpusScan listing).all_errors.length ∧
    (analyze_all_logs listing setOrder now).recent_connections
      = lastN 50 (corpusScan listing).all_connections ∧
    (analyze_all_logs listing setOrder now).recent_connections.length ≤ 50 ∧
    (analyze_all_logs listing setOrder now).summary.total_connections
      = (corpusScan listing).all_connections.length :=
  ⟨rfl, lastN_length_le 100 _, rfl, rfl, lastN_length_le 50 _, rfl⟩

/-- C7: `total_unique_players` equals the number of keys of the players
mapping, and every key appears in at least one join event. -/
theorem c7_unique_players (listing : List FileInput) (setOrder : List String) (now : ℤ)
    (hperm : setOrder.Perm (dedupOf listing)) :
    (analyze_all_logs listing setOrder now).summary.total_unique_players
      = (analyze_all_logs listing setOrder now).players.length ∧
    ∀ p ∈ (analyze_all_logs listing setOrder now).players,
      ∃ j ∈ (corpusScan listing).all_joins, j.username = p.1 := by
  constructor
  · show (dedupOf listing).length = (setOrder.map (playerEntry listing)).length
    rw [List.length_map]
    exact hperm.length_eq.symm
  · intro p hp
    have hp1 : p.1 ∈ setOrder := by
      rw [← players_map_fst listing setOrder now]
      exact List.mem_map_of_mem Prod.fst hp
    have h1 : p.1 ∈ dedupOf listing := hperm.subset hp1
    have h2 : p.1 ∈ usernames (corpusScan listing).all_joins :=
      mem_firstOccAux (usernames (corpusScan listing).all_joins) [] p.1 h1
    rcases List.mem_map.1 h2 with ⟨j, hj, hju⟩
    exact ⟨j, hj, hju⟩

/-- Witness for C7 on a concrete two-player corpus. -/
theorem c7_witness :
    (analyze_all_logs listing1 ordAB 0).summary.total_unique_players
      = (analyze_all_logs listing1 ordAB 0).players.length :=
  (c7_unique_players listing1 ordAB 0 (by decide)).1

/-- C3 counterexample: two runs of the engine on the same unchanged directory
and even the same wall-clock instant — differing only in the hash-dependent
iteration order of the `unique_players` set — produce different snapshots, so
the output is not byte-identical up to `analysis_date`. -/
theorem c3_counterexample :
    ordAB.Perm (dedupOf listing1) ∧ ordBA.Perm (dedupOf listing1) ∧
    (analyze_all_logs listing1 ordAB 0).summary.analysis_date
      = (analyze_all_logs listing1 ordBA 0).summary.analysis_date ∧
    analyze_all_logs listing1 ordAB 0 ≠ analyze_all_logs listing1 ordBA 0 := by
  refine ⟨by decide, by decide, rfl, fun h => ?_⟩
  have h2 : ordAB = ordBA := by
    have h3 := congrArg (fun s : Snapshot => s.players.map Prod.fst) h
    simpa only [players_map_fst] using h3
  exact absurd h2 (by decide)

/-- C3 (amended): two runs on an unchanged directory agree on every snapshot
field except `analysis_date` and the order of the keys of the `players`
mapping, which follows the set iteration order; the players mapping is the
same up to permutation and all other list orders are identical. -/
theorem c3_amended_determinism (listing : List FileInput) (o1 o2 : List String) (n1 n2 : ℤ)
    (h1 : o1.Perm (dedupOf listing)) (h2 : o2.Perm (dedupOf listing)) :
    (analyze_all_logs listing o1 n1).players.Perm (analyze_all_logs listing o2 n2).players ∧
    (analyze_all_logs listing o1 n1).sessions = (analyze_all_logs listing o2 n2).sessions ∧
    (analyze_all_logs listing o1 n1).server_periods
      = (analyze_all_logs listing o2 n2).server_periods ∧
    (analyze_all_logs listing o1 n1).logging_gaps
      = (analyze_all_logs listing o2 n2).logging_gaps ∧
    (analyze_all_logs listing o1 n1).daily_activity
      = (analyze_all_logs listing o2 n2).daily_activity ∧
    (analyze_all_logs listing o1 n1).errors = (analyze_all_logs listing o2 n2).errors ∧
    (analyze_all_logs listing o1 n1).recent_connections
      = (analyze_all_logs listing o2 n2).recent_connections ∧
    (analyze_all_logs listing o1 n1).summary.total_log_files
      = (analyze_all_logs listing o2 n2).summary.total_log_files ∧
    (analyze_all_logs listing o1 n1).summary.total_unique_players
      = (analyze_all_logs listing o2 n2).summary.total_unique_players ∧
    (analyze_all_logs listing o1 n1).summary.total_join_events
      = (analyze_all_logs listing o2 n2).summary.total_join_events ∧
    (analyze_all_logs listing o1 n1).summary.total_sessions
      = (analyze_all_logs listing o2 n2).summary.total_sessions ∧
    (analyze_all_logs listing o1 n1).summary.total_errors
      = (analyze_all_logs listing o2 n2).summary.total_errors ∧
    (analyze_all_logs listing o1 n1).summary.total_connections
      = (analyze_all_logs listing o2 n2).summary.total_connections ∧
    (analyze_all_logs listing o1 n1).summary.total_logging_gaps
      = (analyze_all_logs listing o2 n2).summary.total_logging_gaps ∧
    (analyze_all_logs listing o1 n1).summary.longest_gap_hours
      = (analyze_all_logs listing o2 n2).summary.longest_gap_hours ∧
    (analyze_all_logs listing o1 n1).summary.server_span_days
      = (analyze_all_logs listing o2 n2).summary.server_span_days ∧
    (analyze_all_logs listing o1 n1).summary.first_activity
      = (analyze_all_logs listing o2 n2).summary.first_activity ∧
    (analyze_all_logs listing o1 n1).summary.last_activity
      = (analyze_all_logs listing o2 n2).summary.last_activity ∧
    (analyze_all_logs listing o1 n1).summary.analysis_date = n1 ∧
    (analyze_all_logs listing o2 n2).summary.analysis_date = n2 := by
  refine ⟨?_, rfl, rfl, rfl, rfl, rfl, rfl, rfl, rfl, rfl, rfl, rfl, rfl, rfl, rfl, rfl,
    rfl, rfl, rfl, rfl⟩
  show (o1.map (playerEntry listing)).Perm (o2.map (playerEntry listing))
  exact (h1.trans h2.symm).map _

/-- Witness for the amended C3 across two set orders and two run instants. -/
theorem c3_amended_witness :
    (analyze_all_logs listing1 ordAB 0).players.Perm
      (analyze_all_logs listing1 ordBA 1).players :=
  (c3_amended_determinism listing1 ordAB ordBA 0 1 (by decide) (by decide)).1

/-- C5: over start-sorted spans the detector emits a gap for an adjacent pair
exactly when the duration from the earlier end to the later start strictly
exceeds one hour (so zero or negative gaps never appear); the summary's
`longest_gap_hours` is the maximum detected gap duration or 0 when none
exist; and the spec's example spans produce exactly one two-hour gap. -/
theorem c5_gap_detector :
    (∀ spans : List Span, spans.Pairwise (fun x y => x.start ≤ y.start) →
      ∀ g : LoggingGap,
        (g ∈ detectGaps spans ↔
          ∃ i : ℕ, i + 1 < spans.length ∧
            1 < durHours (spans.getD i defSpan).«end» (spans.getD (i + 1) defSpan).start ∧
            g = mkGap (spans.getD i defSpan) (spans.getD (i + 1) defSpan)) ∧
        (g ∈ detectGaps spans → 1 < g.duration_hours)) ∧
    (∀ (listing : List FileInput) (o : List String) (n : ℤ),
      ((analyze_all_logs listing o n).logging_gaps = [] →
        (analyze_all_logs listing o n).summary.longest_gap_hours = 0) ∧
      (∀ g ∈ (analyze_all_logs listing o n).logging_gaps,
        g.duration_hours ≤ (analyze_all_logs listing o n).summary.longest_gap_hours) ∧
      ((analyze_all_logs listing o n).logging_gaps ≠ [] →
        (analyze_all_logs listing o n).summary.longest_gap_hours ∈
          (analyze_all_logs listing o n).logging_gaps.map (fun g => g.duration_hours))) ∧
    detectGaps [spanA, spanB] = [gapAB] ∧ gapAB.duration_hours = 2 := by
  refine ⟨?_, ?_, ?_, rfl⟩
  · intro spans hsorted g
    refine ⟨detectGaps_mem spans g, ?_⟩
    intro hg
    rcases (detectGaps_mem spans g).1 hg with ⟨i, hi, hgap, heq⟩
    rw [heq]
    exact hgap
  · intro listing o n
    refine ⟨?_, ?_, ?_⟩
    · intro hnil
      have h : gapsOf listing = [] := hnil
      show pyMaxD ((gapsOf listing).map (fun g => g.duration_hours)) 0 = 0
      rw [h]
      rfl
    · intro g hg
      have hg' : g ∈ gapsOf listing := hg
      have hmem : g.duration_hours ∈ (gapsOf listing).map (fun g => g.duration_hours) :=
        List.mem_map_of_mem _ hg'
      show g.duration_hours ≤ pyMaxD ((gapsOf listing).map (fun g => g.duration_hours)) 0
      cases hcase : (gapsOf listing).map (fun g => g.duration_hours) with
      | nil =>
        rw [hcase] at hmem
        simp at hmem
      | cons x xs =>
        rw [hcase] at hmem
        show g.duration_hours ≤ xs.foldl max x
        rcases List.mem_cons.1 hmem with h | h
        · exact foldl_max_le xs x g.duration_hours (Or.inl h)
        · exact foldl_max_le xs x g.duration_hours (Or.inr h)
    · intro hne
      have hne' : gapsOf listing ≠ [] := hne
      show pyMaxD ((gapsOf listing).map (fun g => g.duration_hours)) 0 ∈
        (gapsOf listing).map (fun g => g.duration_hours)
      cases hcase : (gapsOf listing).map (fun g => g.duration_hours) with
      | nil =>
        rw [List.map_eq_nil_iff] at hcase
        exact absurd hcase hne'
      | cons x xs =>
        show xs.foldl max x ∈ x :: xs
        rcases foldl_max_mem xs x with h | h
        · rw [h]
          exact List.mem_cons_self x xs
        · exact List.mem_cons_of_mem x h
  · have h4 : durHours (3600000000 : ℤ) (10800000000 : ℤ) = 2 := by
      norm_num [durHours]
    have hgt : durHours spanA.«end» spanB.start > 1 := by
      norm_num [durHours, spanA, spanB]
    show (if durHours spanA.«end» spanB.start > 1 then [mkGap spanA spanB] else [])
        ++ detectGaps [spanB] = [gapAB]
    rw [if_pos hgt]
    show [mkGap spanA spanB] ++ [] = [gapAB]
    rw [List.append_nil]
    have h3 : mkGap spanA spanB = gapAB := by
      simp only [mkGap, gapAB, spanA, spanB, h4]
    rw [h3]

/-- Witness for C5: the example gap's duration exceeds one hour, and a
one-file corpus with no gaps reports `longest_gap_hours = 0`. -/
theorem c5_witness :
    (1 : ℚ) < gapAB.duration_hours ∧
    (analyze_all_logs listing1 ordAB 0).summary.longest_gap_hours = 0 := by
  constructor
  · refine (c5_gap_detector.1 [spanA, spanB] (by decide) gapAB).2 ?_
    rw [c5_gap_detector.2.2.1]
    exact List.mem_singleton.2 rfl
  · refine (c5_gap_detector.2.1 listing1 ordAB 0).1 ?_
    show gapsOf listing1 = []
    rfl
